import Mathlib

/-!
Shallow embedding of the Enterprise Challenge Sprint 4 industrial IoT
pipeline (ESP32 simulator, data collector, database layer, ML trainer and
predictor), with theorems settling the frozen claims about it.

Conventions of the embedding:
* Python floats are idealised as exact rationals (and reals where a square
  root appears); timestamps are natural numbers (seconds), with the
  hour-of-day of a timestamp t given by t / 3600 % 24.
* Random draws (random.gauss noise, random.random branch flips, np.sin of
  the wall-clock hour, random.randint seeds) are explicit parameters, so
  every theorem quantifies over all possible draws.
* Code that raises an exception is modelled with Option: none where the
  Python method raises, some where it returns.
-/

/-! ## ESP32 simulator (src/ingest/esp32_simulator.py) -/

/-- A data record as assembled by ESP32Simulator.collect_data: the rounded
environmental channels, the raw integer MPU6050 draws and the capture
timestamp (the datetime field of the Python dict carries the same capture
instant as the timestamp field, so a single field models both). -/
structure Esp32Record where
  timestamp : Nat
  temperature : ℚ
  humidity : ℚ
  luminosity : ℚ
  accel_x : ℤ
  accel_y : ℤ
  accel_z : ℤ
  gyro_x : ℤ
  gyro_y : ℤ
  gyro_z : ℤ
  deriving Repr, DecidableEq

/-- The four alert kinds that ESP32Simulator.analyze_data can append. -/
inductive Alert where
  | temperature
  | humidity
  | luminosity
  | vibration
  deriving Repr, DecidableEq

/-- Squared acceleration magnitude accel_x^2 + accel_y^2 + accel_z^2. -/
def accelSq (d : Esp32Record) : ℤ :=
  d.accel_x ^ 2 + d.accel_y ^ 2 + d.accel_z ^ 2

/-- Models ESP32Simulator.analyze_data (esp32_simulator.py lines 113-131):
the four threshold checks in source order.  The source compares
np.sqrt(accelSq) > 2000; since accelSq is nonnegative this is equivalent to
accelSq > 2000^2, which is the executable form used here (the equivalence
with the square-root form is proved in the C3 theorem). -/
def analyze_data (d : Esp32Record) : List Alert :=
  (if d.temperature > 35 then [Alert.temperature] else []) ++
  (if d.humidity > 80 then [Alert.humidity] else []) ++
  (if d.luminosity < 10 then [Alert.luminosity] else []) ++
  (if accelSq d > 2000 ^ 2 then [Alert.vibration] else [])

/-- Models random.randint lo hi: an arbitrary integer seed is mapped into
the inclusive range [lo, hi].  For lo ≤ hi the result always lies in that
range, which is exactly the guarantee random.randint provides. -/
def randint (lo hi seed : ℤ) : ℤ :=
  lo + (seed - lo) % (hi - lo + 1)

/-- Accelerometer and gyroscope sample of the simulated MPU6050. -/
structure MpuData where
  ax : ℤ
  ay : ℤ
  az : ℤ
  gx : ℤ
  gy : ℤ
  gz : ℤ
  deriving Repr, DecidableEq

/-- Models ESP32Simulator.read_mpu6050 (lines 54-70): the 5% chance branch
random.random() < 0.05 is the boolean excessive; the six randint draws are
driven by explicit seeds. -/
def read_mpu6050 (excessive : Bool) (s1 s2 s3 s4 s5 s6 : ℤ) : MpuData :=
  if excessive then
    { ax := randint (-500) 500 s1
      ay := randint (-500) 500 s2
      az := randint 800 1200 s3
      gx := randint (-100) 100 s4
      gy := randint (-100) 100 s5
      gz := randint (-100) 100 s6 }
  else
    { ax := randint (-50) 50 s1
      ay := randint (-50) 50 s2
      az := randint 950 1050 s3
      gx := randint (-100) 100 s4
      gy := randint (-100) 100 s5
      gz := randint (-100) 100 s6 }

/-- Models ESP32Simulator.read_dht22 (lines 35-52).  tempRaw and humRaw are
the values of base sinusoid plus gaussian noise before validation (the
draws are unconstrained, so theorems hold for every possible draw); the
function applies the range validation of the source: an out-of-range
temperature is replaced by 25.0 and an out-of-range humidity by 55.0. -/
def read_dht22 (tempRaw humRaw : ℚ) : ℚ × ℚ :=
  (if tempRaw < -40 ∨ tempRaw > 80 then 25 else tempRaw,
   if humRaw < 0 ∨ humRaw > 100 then 55 else humRaw)

/-- Models ESP32Simulator.read_ldr (lines 72-81): the day/night base plus
noise is the unconstrained draw lightRaw, and the result is clamped by
max(0, min(100, light)) exactly as in the source. -/
def read_ldr (lightRaw : ℚ) : ℚ :=
  max 0 (min 100 lightRaw)

/-- Round half to even on the integers, the rounding mode of Python round.
The fractional part decides: below one half rounds down, above rounds up,
exactly one half rounds to the even neighbour. -/
def roundHalfEven (q : ℚ) : ℤ :=
  if q - (⌊q⌋ : ℚ) < 1 / 2 then ⌊q⌋
  else if (1 : ℚ) / 2 < q - (⌊q⌋ : ℚ) then ⌊q⌋ + 1
  else if ⌊q⌋ % 2 = 0 then ⌊q⌋ else ⌊q⌋ + 1

/-- Python round(x, 2) idealised over the rationals. -/
def round2 (q : ℚ) : ℚ :=
  (roundHalfEven (q * 100) : ℚ) / 100

/-- Models ESP32Simulator.collect_data (lines 83-111): reads the three
simulated sensors from the given draws and assembles the record, rounding
the environmental channels to two decimals. -/
def collect_data (ts : Nat) (tempRaw humRaw lightRaw : ℚ)
    (excessive : Bool) (s1 s2 s3 s4 s5 s6 : ℤ) : Esp32Record :=
  let th := read_dht22 tempRaw humRaw
  let mpu := read_mpu6050 excessive s1 s2 s3 s4 s5 s6
  let light := read_ldr lightRaw
  { timestamp := ts
    temperature := round2 th.1
    humidity := round2 th.2
    luminosity := round2 light
    accel_x := mpu.ax
    accel_y := mpu.ay
    accel_z := mpu.az
    gyro_x := mpu.gx
    gyro_y := mpu.gy
    gyro_z := mpu.gz }

/-! ## ML feature preparation (src/ml/model_trainer.py) -/

/-- One fetched reading row (ts, value) as returned by
get_sensor_readings_by_name, with no missing values. -/
structure Reading where
  ts : Nat
  value : ℚ
  deriving Repr, DecidableEq

/-- Hour of day of a timestamp in seconds, modelling pandas dt.hour. -/
def hourOfTs (ts : Nat) : Nat :=
  ts / 3600 % 24

/-- One row of the feature-engineered dataframe of prepare_training_data:
value, the shifted columns lag1 and lag2, the rolling mean roll3 (none
models NaN, produced by shift and rolling on the first rows) and hour. -/
structure FeatRow where
  value : ℚ
  lag1 : Option ℚ
  lag2 : Option ℚ
  roll3 : Option ℚ
  hour : Nat
  deriving Repr, DecidableEq

/-- Builds the feature rows of a value series while carrying the previous
two values: p1 models value.shift(1) and p2 models value.shift(2) at the
current row; value.rolling(3).mean() is defined exactly when both previous
values exist.  This is the column construction of model_trainer.py lines
41-44 expressed as one pass. -/
def featRowsAux : Option ℚ → Option ℚ → List Reading → List FeatRow
  | _, _, [] => []
  | p2, p1, r :: rest =>
    { value := r.value
      lag1 := p1
      lag2 := p2
      roll3 :=
        match p2, p1 with
        | some a, some b => some ((a + b + r.value) / 3)
        | _, _ => none
      hour := hourOfTs r.ts } :: featRowsAux p1 (some r.value) rest

/-- The feature-engineered dataframe of a sorted reading list. -/
def makeFeatRows (l : List Reading) : List FeatRow :=
  featRowsAux none none l

/-- A row survives df.dropna() iff none of lag1, lag2, roll3 is NaN. -/
def isComplete (row : FeatRow) : Bool :=
  row.lag1.isSome && row.lag2.isSome && row.roll3.isSome

/-- Insert a reading into a list sorted by ascending ts. -/
def insertByTs (r : Reading) : List Reading → List Reading
  | [] => [r]
  | x :: xs => if r.ts ≤ x.ts then r :: x :: xs else x :: insertByTs r xs

/-- Models sensor_data.sort_values(ts): sort readings by ascending ts. -/
def sortByTs : List Reading → List Reading
  | [] => []
  | x :: xs => insertByTs x (sortByTs xs)

/-- A materialised feature vector: exactly the four feature columns
[lag1, lag2, roll3, hour] that MLModelTrainer.feature_columns selects. -/
structure Feat where
  lag1 : ℚ
  lag2 : ℚ
  roll3 : ℚ
  hour : Nat
  deriving Repr, DecidableEq

/-- Projection of a complete feature row to its feature vector (the getD
defaults are never read on rows surviving dropna). -/
def toFeat (row : FeatRow) : Feat :=
  { lag1 := row.lag1.getD 0
    lag2 := row.lag2.getD 0
    roll3 := row.roll3.getD 0
    hour := row.hour }

/-- Models MLModelTrainer.prepare_training_data (model_trainer.py lines
28-56) applied to the fetched readings: none where the source raises
ValueError (empty input, or fewer than 10 rows remaining after dropna),
otherwise the pair (X, y) of feature matrix and target column. -/
def prepare_training_data (sensorData : List Reading) :
    Option (List Feat × List ℚ) :=
  if sensorData.isEmpty then none
  else
    let sorted := sortByTs sensorData
    let kept := (makeFeatRows sorted).filter (fun r => isComplete r)
    if kept.length < 10 then none
    else some (kept.map toFeat, kept.map (fun r => r.value))

/-- Modelled from the spec wording of claim C2: the feature matrix said to
be fitted, written directly as lag features of the sorted series — for
each position from the third on, lag1 is the value shifted by one, lag2
the value shifted by two, roll3 the mean of the last three values and hour
the hour of day of that row.  Compared against the code-derived matrix in
the C2 theorem. -/
def specLagFeatures : List Reading → List Feat
  | r0 :: r1 :: r2 :: rest =>
    { lag1 := r1.value
      lag2 := r0.value
      roll3 := (r0.value + r1.value + r2.value) / 3
      hour := hourOfTs r2.ts } :: specLagFeatures (r1 :: r2 :: rest)
  | _ => []

/-- Models int(len(X) * (1 - test_size)) of model_trainer.py line 65.  For
test_size = 0.2 the float product never crosses an integer boundary (the
relative error of the product is below half an ulp), so the idealised
rational floor agrees with the Python value for every length. -/
def splitIdx (n : Nat) (testSize : ℚ) : Nat :=
  ⌊(n : ℚ) * (1 - testSize)⌋₊

/-- Models the data flow of MLModelTrainer.train_linear_model (lines
58-79): prepare the data, then take the temporal split X[:split_idx],
X[split_idx:] (positional row slicing) and likewise for y.  The sklearn
LinearRegression consumes exactly (X_train, y_train) and is scored on
(X_test, y_test); the fit itself is not modelled, only the data handed to
it. -/
def train_linear_model_split (data : List Reading) (testSize : ℚ) :
    Option ((List Feat × List Feat) × (List ℚ × List ℚ)) :=
  match prepare_training_data data with
  | none => none
  | some (X, y) =>
    let k := splitIdx X.length testSize
    some ((X.take k, X.drop k), (y.take k, y.drop k))

/-! ## Database layer (src/db/connection.py and src/db/sqlite_connection.py)

Row ids: the PostgreSQL class lets the database assign ids (INSERT ...
RETURNING id); the SQLite class generates str(uuid.uuid4()) client side.
Both are modelled by the fresh-id counter nextId of the state, standing
for the id source of each backend. -/

/-- A row of the asset table. -/
structure AssetRow where
  id : Nat
  name : String
  location : String
  deriving Repr, DecidableEq

/-- A row of the sensor table. -/
structure SensorRow where
  id : Nat
  asset_id : Nat
  name : String
  stype : String
  unit : String
  min_value : ℚ
  max_value : ℚ
  deriving Repr, DecidableEq

/-- A row of the reading table. -/
structure ReadingRow where
  id : Nat
  sensor_id : Nat
  ts : Nat
  value : ℚ
  deriving Repr, DecidableEq

/-- A row of the alert table (SQLite schema lines 102-115). -/
structure AlertRow where
  id : Nat
  sensor_id : Nat
  alert_type : String
  threshold_value : ℚ
  actual_value : ℚ
  message : String
  severity : String
  acknowledged : Bool
  deriving Repr, DecidableEq

/-- A row of the prediction table (SQLite schema lines 118-128). -/
structure PredictionRow where
  id : Nat
  sensor_id : Nat
  predicted_value : ℚ
  confidence : ℚ
  model_version : String
  deriving Repr, DecidableEq

/-- The logical database state shared by both backends, plus the fresh-id
counter. -/
structure DBState where
  assets : List AssetRow
  sensors : List SensorRow
  readings : List ReadingRow
  alerts : List AlertRow
  predictions : List PredictionRow
  nextId : Nat
  deriving Repr, DecidableEq

/-- A connection: the durable committed state and the uncommitted
transaction view the cursor operates on. -/
structure Conn where
  committed : DBState
  pending : DBState
  deriving Repr, DecidableEq

/-- The line printed by both execute_query error handlers. -/
def errMsg (e : String) : String :=
  "Erro ao executar query: " ++ e

/-- Drop leading whitespace characters, the left half of str.strip()
(the right half cannot affect a startswith test). -/
def dropLeadingWs : List Char → List Char
  | [] => []
  | c :: cs => if c = ' ' ∨ c = '\n' ∨ c = '\t' ∨ c = '\r' then dropLeadingWs cs else c :: cs

/-- Models query.strip().upper().startswith of SQLiteConnection's
execute_query (sqlite_connection.py line 48). -/
def startsWithSelect (q : String) : Bool :=
  "SELECT".toList.isPrefixOf ((dropLeadingWs q.toList).map Char.toUpper)

/-- Models DatabaseConnection.execute_query (connection.py lines 42-54).
The engine argument stands for cursor.execute: attempt number, transaction
view in, and either rows plus new view or a raised exception.  Only
attempt 0 is ever consulted (the source has no retry).  hasResultSet
models cursor.description being non-null: then the rows are fetched and
no commit happens; otherwise the transaction commits.  On an engine
exception the handler prints, rolls the pending view back to the committed
state and re-raises.  Returns (outcome, connection after, printed lines). -/
def executeQueryPg {ρ : Type}
    (engine : Nat → DBState → Except String (List ρ × DBState))
    (hasResultSet : Bool) (c : Conn) :
    Except String (List ρ) × Conn × List String :=
  match engine 0 c.pending with
  | .ok (rows, st2) =>
    if hasResultSet then (.ok rows, { c with pending := st2 }, [])
    else (.ok [], { committed := st2, pending := st2 }, [])
  | .error e => (.error e, { c with pending := c.committed }, [errMsg e])

/-- Models SQLiteConnection.execute_query (sqlite_connection.py lines
39-56): identical to the PostgreSQL version except that the fetch/commit
decision is made by startsWithSelect on the query text rather than by
cursor.description. -/
def executeQuerySqlite {ρ : Type}
    (engine : Nat → DBState → Except String (List ρ × DBState))
    (query : String) (c : Conn) :
    Except String (List ρ) × Conn × List String :=
  match engine 0 c.pending with
  | .ok (rows, st2) =>
    if startsWithSelect query then (.ok rows, { c with pending := st2 }, [])
    else (.ok [], { committed := st2, pending := st2 }, [])
  | .error e => (.error e, { c with pending := c.committed }, [errMsg e])

/-- Models DatabaseConnection.create_reading (connection.py lines 83-91):
one INSERT INTO reading (sensor_id, ts, value) RETURNING id, with no
duplicate check, batching or retry; returns the new id and the state. -/
def createReadingPg (st : DBState) (sid ts : Nat) (v : ℚ) : Nat × DBState :=
  (st.nextId,
   { st with
      readings := st.readings ++ [{ id := st.nextId, sensor_id := sid, ts := ts, value := v }]
      nextId := st.nextId + 1 })

/-- Models SQLiteConnection.create_reading (sqlite_connection.py lines
187-192): generates a fresh id and performs the same single unguarded
INSERT. -/
def createReadingSqlite (st : DBState) (sid ts : Nat) (v : ℚ) : Nat × DBState :=
  (st.nextId,
   { st with
      readings := st.readings ++ [{ id := st.nextId, sensor_id := sid, ts := ts, value := v }]
      nextId := st.nextId + 1 })

/-- Models DatabaseConnection.create_asset (connection.py lines 56-64). -/
def createAssetPg (st : DBState) (name location : String) : Nat × DBState :=
  (st.nextId,
   { st with
      assets := st.assets ++ [{ id := st.nextId, name := name, location := location }]
      nextId := st.nextId + 1 })

/-- Models SQLiteConnection.create_asset (sqlite_connection.py 169-174). -/
def createAssetSqlite (st : DBState) (name location : String) : Nat × DBState :=
  (st.nextId,
   { st with
      assets := st.assets ++ [{ id := st.nextId, name := name, location := location }]
      nextId := st.nextId + 1 })

/-- The sensor_data dict argument of create_sensor. -/
structure SensorData where
  name : String
  stype : String
  unit : String
  min_value : ℚ
  max_value : ℚ
  deriving Repr, DecidableEq

/-- Models DatabaseConnection.create_sensor (connection.py lines 66-81). -/
def createSensorPg (st : DBState) (assetId : Nat) (sd : SensorData) : Nat × DBState :=
  (st.nextId,
   { st with
      sensors := st.sensors ++
        [{ id := st.nextId, asset_id := assetId, name := sd.name, stype := sd.stype,
           unit := sd.unit, min_value := sd.min_value, max_value := sd.max_value }]
      nextId := st.nextId + 1 })

/-- Models SQLiteConnection.create_sensor (sqlite_connection.py 176-185). -/
def createSensorSqlite (st : DBState) (assetId : Nat) (sd : SensorData) : Nat × DBState :=
  (st.nextId,
   { st with
      sensors := st.sensors ++
        [{ id := st.nextId, asset_id := assetId, name := sd.name, stype := sd.stype,
           unit := sd.unit, min_value := sd.min_value, max_value := sd.max_value }]
      nextId := st.nextId + 1 })

/-- Models SQLiteConnection.create_prediction (sqlite_connection.py lines
204-212): single INSERT INTO prediction. -/
def createPredictionSqlite (st : DBState) (sid : Nat) (pv conf : ℚ)
    (version : String) : Nat × DBState :=
  (st.nextId,
   { st with
      predictions := st.predictions ++
        [{ id := st.nextId, sensor_id := sid, predicted_value := pv,
           confidence := conf, model_version := version }]
      nextId := st.nextId + 1 })

/-- Insert a reading row into a list sorted by descending ts (ORDER BY ts
DESC). -/
def insertByTsDesc (r : ReadingRow) : List ReadingRow → List ReadingRow
  | [] => [r]
  | x :: xs => if x.ts ≤ r.ts then r :: x :: xs else x :: insertByTsDesc r xs

/-- Sort reading rows by descending ts. -/
def sortByTsDesc : List ReadingRow → List ReadingRow
  | [] => []
  | x :: xs => insertByTsDesc x (sortByTsDesc xs)

/-- Models the SQL of get_sensor_readings in both classes: SELECT ts,
value FROM reading WHERE sensor_id = ? ORDER BY ts DESC LIMIT ?. -/
def sensorReadingsRows (st : DBState) (sid limit : Nat) : List (Nat × ℚ) :=
  ((sortByTsDesc (st.readings.filter (fun r => r.sensor_id == sid))).take limit).map
    (fun r => (r.ts, r.value))

/-- Models DatabaseConnection.get_sensor_readings (connection.py 93-109). -/
def getSensorReadingsPg (st : DBState) (sid limit : Nat) : List (Nat × ℚ) :=
  sensorReadingsRows st sid limit

/-- The query text of SQLiteConnection.get_sensor_readings. -/
def sensorReadingsQuery : String :=
  "\n        SELECT ts, value\n        FROM reading\n        WHERE sensor_id = ?\n        ORDER BY ts DESC\n        LIMIT ?\n        "

/-- Models SQLiteConnection.get_sensor_readings (sqlite_connection.py
214-230): its execute_query only fetches when the query text passes the
startsWithSelect test, so the rows are returned under that guard. -/
def getSensorReadingsSqlite (st : DBState) (sid limit : Nat) : List (Nat × ℚ) :=
  if startsWithSelect sensorReadingsQuery then sensorReadingsRows st sid limit else []

/-- A row of the latest-readings result set. -/
structure LatestRow where
  ts : Nat
  value : ℚ
  sensor_name : String
  stype : String
  unit : String
  deriving Repr, DecidableEq

/-- A reading is the latest of its sensor when no reading of the same
sensor has a larger ts (the CTE joins on ts = MAX(ts) per sensor). -/
def isLatestOfSensor (st : DBState) (r : ReadingRow) : Bool :=
  (st.readings.filter (fun x => x.sensor_id == r.sensor_id)).all (fun x => x.ts ≤ r.ts)

/-- Insert a latest-row into a list sorted by ascending sensor name. -/
def insertByName (r : LatestRow) : List LatestRow → List LatestRow
  | [] => [r]
  | x :: xs => if r.sensor_name ≤ x.sensor_name then r :: x :: xs else x :: insertByName r xs

/-- Sort latest-rows by sensor name (ORDER BY s.name). -/
def sortByName : List LatestRow → List LatestRow
  | [] => []
  | x :: xs => insertByName x (sortByName xs)

/-- The result set computed by the latest-readings SQL shared by both
classes: readings at the maximal ts of their sensor, joined with the
sensor table, ordered by sensor name. -/
def latestReadingsRows (st : DBState) : List LatestRow :=
  sortByName
    ((st.readings.filter (fun r => isLatestOfSensor st r)).filterMap (fun r =>
      (st.sensors.find? (fun s => s.id == r.sensor_id)).map (fun s =>
        { ts := r.ts, value := r.value, sensor_name := s.name,
          stype := s.stype, unit := s.unit })))

/-- Models DatabaseConnection.get_latest_readings (connection.py 189-211):
the WITH ... SELECT query produces a cursor description, so the rows are
fetched. -/
def getLatestReadingsPg (st : DBState) : List LatestRow :=
  latestReadingsRows st

/-- The query text of get_latest_readings in both classes; it begins with
WITH, not with SELECT. -/
def latestReadingsQuery : String :=
  "\n        WITH latest_readings AS (\n            SELECT sensor_id, MAX(ts) as latest_ts\n            FROM reading\n            GROUP BY sensor_id\n        )\n        SELECT r.ts, r.value, s.name as sensor_name, s.type, s.unit\n        FROM reading r\n        JOIN latest_readings lr ON r.sensor_id = lr.sensor_id AND r.ts = lr.latest_ts\n        JOIN sensor s ON r.sensor_id = s.id\n        ORDER BY s.name\n        "

/-- Models SQLiteConnection.get_latest_readings (sqlite_connection.py
251-273): its execute_query fetches rows only when the query text starts
with SELECT, and this query starts with WITH. -/
def getLatestReadingsSqlite (st : DBState) : List LatestRow :=
  if startsWithSelect latestReadingsQuery then latestReadingsRows st else []

/-- Maximum of a list of naturals, none when empty (SQL MAX over an empty
table is NULL). -/
def listMaxNat : List Nat → Option Nat
  | [] => none
  | x :: xs =>
    match listMaxNat xs with
    | none => some x
    | some m => some (max x m)

/-- Minimum of a list of naturals, none when empty. -/
def listMinNat : List Nat → Option Nat
  | [] => none
  | x :: xs =>
    match listMinNat xs with
    | none => some x
    | some m => some (min x m)

/-- A value of the stats dict: a table count or an optional timestamp. -/
inductive StatVal where
  | count (n : Nat)
  | tstamp (t : Option Nat)
  deriving Repr, DecidableEq

/-- Models DatabaseConnection.get_database_stats (connection.py 223-244):
counts for the tables asset, sensor, reading, then last_reading and
first_reading, in dict insertion order. -/
def getDatabaseStatsPg (st : DBState) : List (String × StatVal) :=
  [("asset_count", .count st.assets.length),
   ("sensor_count", .count st.sensors.length),
   ("reading_count", .count st.readings.length),
   ("last_reading", .tstamp (listMaxNat (st.readings.map (fun r => r.ts)))),
   ("first_reading", .tstamp (listMinNat (st.readings.map (fun r => r.ts))))]

/-- Models SQLiteConnection.get_database_stats (sqlite_connection.py
281-297): counts for asset, sensor, reading, alert and prediction, then
last_reading only. -/
def getDatabaseStatsSqlite (st : DBState) : List (String × StatVal) :=
  [("asset_count", .count st.assets.length),
   ("sensor_count", .count st.sensors.length),
   ("reading_count", .count st.readings.length),
   ("alert_count", .count st.alerts.length),
   ("prediction_count", .count st.predictions.length),
   ("last_reading", .tstamp (listMaxNat (st.readings.map (fun r => r.ts))))]

/-- Models SQLiteConnection.get_sensor_id_by_name (sqlite_connection.py
275-279): first sensor row matching the name, none when absent.  The
PostgreSQL class does not define this method. -/
def getSensorIdByNameSqlite (st : DBState) (name : String) : Option Nat :=
  (st.sensors.find? (fun s => s.name == name)).map (fun s => s.id)

/-- Models SQLiteConnection.get_sensor_readings_by_name
(sqlite_connection.py 232-249): readings joined to sensors of the given
name, ordered by descending ts, limited.  The PostgreSQL class does not
define this method. -/
def getSensorReadingsByNameSqlite (st : DBState) (name : String) (limit : Nat) :
    List (Nat × ℚ) :=
  ((sortByTsDesc (st.readings.filter (fun r =>
      st.sensors.any (fun s => s.id == r.sensor_id && s.name == name)))).take limit).map
    (fun r => (r.ts, r.value))

/-! ## ML predictor (src/ml/predictor.py) and trainer prediction
(src/ml/model_trainer.py).

Both run against the connection object that actually provides the by-name
and prediction operations, the SQLite class (the PostgreSQL class lacks
them).  The trained sklearn model is abstracted as a function from a
feature vector to the predicted value; the square root inside the sample
standard deviation is abstracted as a parameter sqrtFn, since no claim
constrains the numeric value of the confidence. -/

/-- Mean of a list of rationals (sum / len; empty list gives 0 under
rational division by zero, a state the callers guard against). -/
def listMean (vs : List ℚ) : ℚ :=
  vs.sum / vs.length

/-- Sample variance with ddof = 1, as pandas Series.std uses:
sum of squared deviations from the mean divided by n - 1.  For a single
value the source produces NaN; here rational division by zero gives 0 (no
claim depends on that case). -/
def sampleVariance (vs : List ℚ) : ℚ :=
  (vs.map (fun v => (v - listMean vs) ^ 2)).sum / ((vs.length : ℚ) - 1)

/-- Sample standard deviation: sqrtFn abstracts the real square root. -/
def sampleStd (sqrtFn : ℚ → ℚ) (vs : List ℚ) : ℚ :=
  sqrtFn (sampleVariance vs)

/-- Convert fetched (ts, value) rows to readings. -/
def rowsToReadings (rows : List (Nat × ℚ)) : List Reading :=
  rows.map (fun p => { ts := p.1, value := p.2 })

/-- Models MLPredictor.prepare_features (predictor.py lines 42-65): fetch
the last lookback readings by sensor name, sort ascending, build the lag
features, drop NaN rows and keep the four feature columns. -/
def prepare_features (st : DBState) (sensorName : String) (lookback : Nat) :
    List Feat :=
  let recent := getSensorReadingsByNameSqlite st sensorName lookback
  let sorted := sortByTs (rowsToReadings recent)
  ((makeFeatRows sorted).filter (fun r => isComplete r)).map toFeat

/-- The dict returned by MLPredictor.predict_single_value (sensor_name,
predicted_value, confidence; model_used and timestamp strings are not
modelled). -/
structure PredictOut where
  sensor_name : String
  predicted_value : ℚ
  confidence : ℚ
  deriving Repr, DecidableEq

/-- Models MLPredictor.predict_single_value (predictor.py lines 67-97):
prepare features (none when they are empty, where the source raises),
predict on the last feature row, compute the confidence from the last 10
values, persist the prediction with create_prediction(sensor_id,
prediction, confidence, "v1.0") and return the dict.  none also when the
sensor name resolves to no id (the source would then insert NULL into a
NOT NULL column and raise). -/
def predict_single_value (sqrtFn : ℚ → ℚ) (model : Feat → ℚ)
    (st : DBState) (sensorName : String) : Option (PredictOut × DBState) :=
  let feats := prepare_features st sensorName 5
  match feats.getLast? with
  | none => none
  | some lastFeat =>
    let prediction := model lastFeat
    let recent10 := (getSensorReadingsByNameSqlite st sensorName 10).map (fun p => p.2)
    let confidence :=
      max (1 / 10) (min (95 / 100)
        (1 - sampleStd sqrtFn recent10 / listMean recent10))
    match getSensorIdByNameSqlite st sensorName with
    | none => none
    | some sid =>
      some ({ sensor_name := sensorName, predicted_value := prediction,
              confidence := confidence },
            (createPredictionSqlite st sid prediction confidence "v1.0").2)

/-- Models MLModelTrainer.predict_next_value (model_trainer.py lines
188-225): fetch the last 10 readings (none when empty, where the source
raises), take the last three in ascending order, build the single feature
row with iloc fallbacks for short series and the current wall-clock hour
nowHour, predict, persist with create_prediction(sensor_id, prediction,
0.8, "v1.0") and return (sensor_name, predicted float). -/
def predict_next_value (model : Feat → ℚ) (nowHour : Nat)
    (st : DBState) (sensorName : String) : Option ((String × ℚ) × DBState) :=
  let recent := getSensorReadingsByNameSqlite st sensorName 10
  if recent.isEmpty then none
  else
    let asc := sortByTs (rowsToReadings recent)
    let last3 := asc.drop (asc.length - 3)
    let vals := last3.map (fun r => r.value)
    let rv := vals.reverse
    let v0 := rv.headD 0
    let lag1 := if 1 < vals.length then (rv.get? 1).getD 0 else v0
    let lag2 := if 2 < vals.length then (rv.get? 2).getD 0 else v0
    let feat : Feat := { lag1 := lag1, lag2 := lag2, roll3 := listMean vals, hour := nowHour }
    let prediction := model feat
    match getSensorIdByNameSqlite st sensorName with
    | none => none
    | some sid =>
      some ((sensorName, prediction),
            (createPredictionSqlite st sid prediction (8 / 10) "v1.0").2)

/-! ## Data collector (src/ingest/data_collector.py) -/

/-- The sensor_ids mapping of a configured DataCollector (filled by
setup_assets_and_sensors for S_TEMP, S_HUMIDITY, S_LIGHT, S_VIBRATION). -/
structure SensorIds where
  temp : Nat
  humidity : Nat
  light : Nat
  vibration : Nat
  deriving Repr, DecidableEq

/-- One processed reading dict (sensor_id, ts, value); the value is real
because the vibration channel stores a square root. -/
structure ProcReading where
  sensor_id : Nat
  ts : Nat
  value : ℝ

/-- Models DataCollector.process_esp32_data (data_collector.py lines
70-106): for each ESP32 record, in order, append one temperature, one
humidity, one luminosity and one vibration reading, the last with the
acceleration magnitude sqrt(accel_x^2 + accel_y^2 + accel_z^2). -/
noncomputable def process_esp32_data (ids : SensorIds) :
    List Esp32Record → List ProcReading
  | [] => []
  | r :: rest =>
    { sensor_id := ids.temp, ts := r.timestamp, value := (r.temperature : ℝ) } ::
    { sensor_id := ids.humidity, ts := r.timestamp, value := (r.humidity : ℝ) } ::
    { sensor_id := ids.light, ts := r.timestamp, value := (r.luminosity : ℝ) } ::
    { sensor_id := ids.vibration, ts := r.timestamp,
      value := Real.sqrt ((r.accel_x : ℝ) ^ 2 + (r.accel_y : ℝ) ^ 2 + (r.accel_z : ℝ) ^ 2) } ::
    process_esp32_data ids rest

/-! ## Concrete data used by witnesses and counterexamples -/

/-- Twelve clean readings, one per hour, used as witness input. -/
def wReadings : List Reading :=
  [{ ts := 0, value := 3 }, { ts := 3600, value := 5 }, { ts := 7200, value := 4 },
   { ts := 10800, value := 6 }, { ts := 14400, value := 7 }, { ts := 18000, value := 5 },
   { ts := 21600, value := 8 }, { ts := 25200, value := 9 }, { ts := 28800, value := 7 },
   { ts := 32400, value := 10 }, { ts := 36000, value := 11 }, { ts := 39600, value := 9 }]

/-- The prepared (X, y) of the witness readings. -/
def wPair : List Feat × List ℚ :=
  (prepare_training_data wReadings).getD ([], [])

/-- The train/test split of the witness readings at test_size 0.2: the 12
readings prepare to 10 rows and the split index is then 8. -/
def wSplit : (List Feat × List Feat) × (List ℚ × List ℚ) :=
  ((wPair.1.take 8, wPair.1.drop 8), (wPair.2.take 8, wPair.2.drop 8))

/-- Five clean sorted readings: enough rows for the lag features, but the
source raises on them (fewer than 10 rows remain after dropna). -/
def fiveReadings : List Reading :=
  [{ ts := 0, value := 1 }, { ts := 3600, value := 2 }, { ts := 7200, value := 3 },
   { ts := 10800, value := 4 }, { ts := 14400, value := 5 }]

/-- A record with high temperature and everything else nominal, used by the
C3 witness. -/
def dC3 : Esp32Record :=
  { timestamp := 100, temperature := 40, humidity := 50, luminosity := 60,
    accel_x := 10, accel_y := 20, accel_z := 1000,
    gyro_x := 0, gyro_y := 0, gyro_z := 0 }

/-- The empty database state. -/
def emptyDB : DBState :=
  { assets := [], sensors := [], readings := [], alerts := [], predictions := [], nextId := 0 }

/-- A fresh connection on the empty state. -/
def conn0 : Conn :=
  { committed := emptyDB, pending := emptyDB }

/-- An engine whose every attempt raises, used by the C4 witness. -/
def failingEngine : Nat → DBState → Except String (List Nat × DBState) :=
  fun _ _ => .error "falha de conexao"

/-- A database state with one asset, one sensor and one reading, on which
the two backends observably disagree. -/
def dbC6 : DBState :=
  { assets := [{ id := 0, name := "Linha de Producao Principal", location := "Setor A" }]
    sensors := [{ id := 1, asset_id := 0, name := "S_TEMP", stype := "temperature",
                  unit := "C", min_value := -40, max_value := 80 }]
    readings := [{ id := 2, sensor_id := 1, ts := 3600, value := 25 }]
    alerts := []
    predictions := []
    nextId := 3 }

/-- A database state with the S_TEMP sensor and five readings, used by the
C8 witness. -/
def c8St : DBState :=
  { assets := [{ id := 0, name := "Linha de Producao Principal", location := "Setor A" }]
    sensors := [{ id := 1, asset_id := 0, name := "S_TEMP", stype := "temperature",
                  unit := "C", min_value := -40, max_value := 80 }]
    readings := [{ id := 10, sensor_id := 1, ts := 3600, value := 24 },
                 { id := 11, sensor_id := 1, ts := 7200, value := 25 },
                 { id := 12, sensor_id := 1, ts := 10800, value := 26 },
                 { id := 13, sensor_id := 1, ts := 14400, value := 25 },
                 { id := 14, sensor_id := 1, ts := 18000, value := 27 }]
    alerts := []
    predictions := []
    nextId := 100 }

/-- A concrete abstracted model used by the C8 witness. -/
def c8Model : Feat → ℚ :=
  fun f => f.lag1 + f.roll3 / 2

/-- The predictor output and state of the C8 witness run. -/
def c8Single : PredictOut × DBState :=
  (predict_single_value (fun _ => 0) c8Model c8St "S_TEMP").getD
    ({ sensor_name := "", predicted_value := 0, confidence := 0 }, c8St)

/-- A database state with the S_TEMP sensor and only two readings, so a
predict_next_value run on it takes the short-series iloc fallback for
lag2 (model_trainer.py line 207). -/
def c8StShort : DBState :=
  { assets := [{ id := 0, name := "Linha de Producao Principal", location := "Setor A" }]
    sensors := [{ id := 1, asset_id := 0, name := "S_TEMP", stype := "temperature",
                  unit := "C", min_value := -40, max_value := 80 }]
    readings := [{ id := 10, sensor_id := 1, ts := 3600, value := 24 },
                 { id := 11, sensor_id := 1, ts := 7200, value := 25 }]
    alerts := []
    predictions := []
    nextId := 50 }

/-- The trainer prediction output and state of the C8 witness run on the
two-reading state. -/
def c8NextShort : (String × ℚ) × DBState :=
  (predict_next_value c8Model 11 c8StShort "S_TEMP").getD (("", 0), c8StShort)

/-! ## Helper lemmas: feature pipeline -/

theorem featRowsAux_length (p2 p1 : Option ℚ) (l : List Reading) :
    (featRowsAux p2 p1 l).length = l.length := by
  induction l generalizing p2 p1 with
  | nil => rfl
  | cons r rest ih => simp [featRowsAux, ih]

theorem featRowsAux_all_complete (a b : ℚ) (l : List Reading) :
    ∀ row ∈ featRowsAux (some a) (some b) l, isComplete row = true := by
  induction l generalizing a b with
  | nil => intro row h; cases h
  | cons r rest ih =>
    intro row h
    rcases List.mem_cons.mp h with h | h
    · subst h; rfl
    · exact ih b r.value row h

theorem featRowsAux_filter_complete (a b : ℚ) (l : List Reading) :
    (featRowsAux (some a) (some b) l).filter (fun r => isComplete r)
      = featRowsAux (some a) (some b) l :=
  List.filter_eq_self.mpr (featRowsAux_all_complete a b l)

theorem makeFeatRows_cons2 (r0 r1 : Reading) (rest : List Reading) :
    makeFeatRows (r0 :: r1 :: rest)
      = { value := r0.value, lag1 := none, lag2 := none, roll3 := none,
          hour := hourOfTs r0.ts } ::
        { value := r1.value, lag1 := some r0.value, lag2 := none, roll3 := none,
          hour := hourOfTs r1.ts } ::
        featRowsAux (some r0.value) (some r1.value) rest := rfl

theorem filter_makeFeatRows_eq_drop (l : List Reading) :
    (makeFeatRows l).filter (fun r => isComplete r) = (makeFeatRows l).drop 2 := by
  match l with
  | [] => rfl
  | [r] => rfl
  | r0 :: r1 :: rest =>
    rw [makeFeatRows_cons2, List.filter_cons_of_neg, List.filter_cons_of_neg]
    · exact featRowsAux_filter_complete r0.value r1.value rest
    · simp [isComplete]
    · simp [isComplete]

theorem insertByTs_length (r : Reading) (l : List Reading) :
    (insertByTs r l).length = l.length + 1 := by
  induction l with
  | nil => rfl
  | cons x xs ih => by_cases h : r.ts ≤ x.ts <;> simp [insertByTs, h, ih]

theorem sortByTs_length (l : List Reading) :
    (sortByTs l).length = l.length := by
  induction l with
  | nil => rfl
  | cons x xs ih => simp [sortByTs, insertByTs_length, ih]

theorem prepare_kept_length (data : List Reading) :
    ((makeFeatRows (sortByTs data)).filter (fun r => isComplete r)).length
      = data.length - 2 := by
  rw [filter_makeFeatRows_eq_drop]
  simp [makeFeatRows, featRowsAux_length, sortByTs_length]

theorem prepare_isSome_iff (data : List Reading) :
    (prepare_training_data data).isSome ↔ 12 ≤ data.length := by
  have hk := prepare_kept_length data
  cases data with
  | nil => simp [prepare_training_data]
  | cons x xs =>
    simp only [prepare_training_data, List.isEmpty_cons, Bool.false_eq_true, if_false]
    rw [hk]
    by_cases hl : (x :: xs).length - 2 < 10
    · simp only [hl, if_true, Option.isSome_none]
      simp only [List.length_cons] at hl ⊢
      constructor
      · intro h; exact absurd h (by simp)
      · intro h; omega
    · simp only [hl, if_false, Option.isSome_some]
      simp only [List.length_cons] at hl ⊢
      constructor
      · intro _; omega
      · intro _; trivial

theorem featRowsAux_map_toFeat (l : List Reading) (r0 r1 : Reading) :
    (featRowsAux (some r0.value) (some r1.value) l).map toFeat
      = specLagFeatures (r0 :: r1 :: l) := by
  induction l generalizing r0 r1 with
  | nil => rfl
  | cons r rest ih =>
    simp only [featRowsAux, List.map_cons]
    rw [ih r1 r]
    rfl

theorem splitIdx_one_fifth (n : Nat) : splitIdx n (1 / 5) = n * 4 / 5 := by
  unfold splitIdx
  have h : (n : ℚ) * (1 - 1 / 5) = ((n * 4 : ℕ) : ℚ) / ((5 : ℕ) : ℚ) := by
    push_cast; ring
  rw [h, Nat.floor_div_nat, Nat.floor_natCast]

/-! ## Claims C1 and C2 -/

/-- Claim C1 counterexample: five clean, already sorted readings (n = 5,
n >= 2, no missing values), yet prepare_training_data returns no feature
matrix at all — the source raises ValueError because only 3 rows remain
after dropping the lag-incomplete rows — so X and y do not have n - 2
rows as the claim states. -/
theorem prepare_training_data_small_input_counterexample :
    fiveReadings.length = 5 ∧ prepare_training_data fiveReadings = none := by
  constructor
  · rfl
  · decide

/-- Claim C1 (amended): the dropna step of prepare_training_data removes
exactly the first two rows of the sorted frame (the only rows where lag1,
lag2 or roll3 is undefined); the method returns at all iff the input has
at least 12 rows (below that the source raises, since fewer than 10 rows
remain), and whenever it returns, the feature matrix X and the target y
each have exactly n - 2 rows for an input of n rows. -/
theorem prepare_training_data_amended (data : List Reading) :
    (makeFeatRows (sortByTs data)).filter (fun r => isComplete r)
      = (makeFeatRows (sortByTs data)).drop 2 ∧
    ((prepare_training_data data).isSome ↔ 12 ≤ data.length) ∧
    (∀ X y, prepare_training_data data = some (X, y) →
      X.length = data.length - 2 ∧ y.length = data.length - 2) := by
  refine ⟨filter_makeFeatRows_eq_drop _, prepare_isSome_iff data, ?_⟩
  intro X y h
  have hk := prepare_kept_length data
  simp only [prepare_training_data] at h
  split_ifs at h with h1 h2
  have hp := Option.some.inj h
  rw [Prod.mk.injEq] at hp
  obtain ⟨hX, hy⟩ := hp
  constructor
  · rw [← hX, List.length_map, hk]
  · rw [← hy, List.length_map, hk]

/-- Witness for the amended C1 theorem: at the twelve-reading input the
prepared X and y both have 12 - 2 = 10 rows. -/
theorem prepare_training_data_amended_witness :
    wPair.1.length = wReadings.length - 2 ∧ wPair.2.length = wReadings.length - 2 :=
  (prepare_training_data_amended wReadings).2.2 wPair.1 wPair.2 rfl

/-- Claim C2: train_linear_model fits on exactly the four features — each
row of the prepared X is the vector (lag1, lag2, roll3, hour) of lag
features of the sorted series, as specLagFeatures states — and validates
with a single temporal split: for prepared data of n rows and test_size
0.2 the training set is exactly the first n * 4 / 5 = floor(n * 0.8) rows,
the test set is the remaining rows, and together they partition the
prepared data (and targets). -/
theorem train_linear_model_features_and_split (data : List Reading)
    (X : List Feat) (y : List ℚ)
    (Xtr Xte : List Feat) (ytr yte : List ℚ)
    (h : prepare_training_data data = some (X, y))
    (hs : train_linear_model_split data (1 / 5) = some ((Xtr, Xte), (ytr, yte))) :
    X = specLagFeatures (sortByTs data) ∧
    Xtr = X.take (X.length * 4 / 5) ∧
    Xte = X.drop (X.length * 4 / 5) ∧
    ytr = y.take (X.length * 4 / 5) ∧
    yte = y.drop (X.length * 4 / 5) ∧
    Xtr ++ Xte = X ∧ ytr ++ yte = y := by
  have hXspec : X = specLagFeatures (sortByTs data) := by
    have hcopy := h
    simp only [prepare_training_data] at hcopy
    split_ifs at hcopy with h1 h2
    have hp := Option.some.inj hcopy
    rw [Prod.mk.injEq] at hp
    obtain ⟨hX, _⟩ := hp
    rw [← hX, filter_makeFeatRows_eq_drop]
    cases hsorted : sortByTs data with
    | nil =>
      rw [hsorted, filter_makeFeatRows_eq_drop] at h2
      simp [makeFeatRows, featRowsAux] at h2
    | cons r0 tl =>
      cases tl with
      | nil =>
        rw [hsorted, filter_makeFeatRows_eq_drop] at h2
        simp [makeFeatRows, featRowsAux] at h2
      | cons r1 rest =>
        rw [makeFeatRows_cons2, List.drop_succ_cons, List.drop_succ_cons, List.drop_zero]
        exact featRowsAux_map_toFeat rest r0 r1
  have hsplit : train_linear_model_split data (1 / 5)
      = some ((X.take (X.length * 4 / 5), X.drop (X.length * 4 / 5)),
              (y.take (X.length * 4 / 5), y.drop (X.length * 4 / 5))) := by
    simp only [train_linear_model_split, h, splitIdx_one_fifth]
  rw [hsplit] at hs
  have hp := Option.some.inj hs
  rw [Prod.mk.injEq, Prod.mk.injEq, Prod.mk.injEq] at hp
  obtain ⟨⟨hXtr, hXte⟩, hytr, hyte⟩ := hp
  refine ⟨hXspec, hXtr.symm, hXte.symm, hytr.symm, hyte.symm, ?_, ?_⟩
  · rw [← hXtr, ← hXte, List.take_append_drop]
  · rw [← hytr, ← hyte, List.take_append_drop]

/-- Witness for C2 at the twelve-reading input: the prepared X is the
spec-side lag-feature matrix of the sorted readings and the split is the
8/2 partition of the 10 prepared rows. -/
theorem train_linear_model_features_and_split_witness :
    wPair.1 = specLagFeatures (sortByTs wReadings) ∧
    wSplit.1.1 = wPair.1.take (wPair.1.length * 4 / 5) ∧
    wSplit.1.2 = wPair.1.drop (wPair.1.length * 4 / 5) ∧
    wSplit.2.1 = wPair.2.take (wPair.1.length * 4 / 5) ∧
    wSplit.2.2 = wPair.2.drop (wPair.1.length * 4 / 5) ∧
    wSplit.1.1 ++ wSplit.1.2 = wPair.1 ∧ wSplit.2.1 ++ wSplit.2.2 = wPair.2 :=
  train_linear_model_features_and_split wReadings wPair.1 wPair.2
    wSplit.1.1 wSplit.1.2 wSplit.2.1 wSplit.2.2 rfl
    (by
      have h1 : prepare_training_data wReadings = some (wPair.1, wPair.2) := rfl
      simp only [train_linear_model_split, h1, splitIdx_one_fifth]
      rfl)

/-! ## Helper lemmas: simulator -/

theorem analyze_data_mem (d : Esp32Record) :
    (Alert.temperature ∈ analyze_data d ↔ d.temperature > 35) ∧
    (Alert.humidity ∈ analyze_data d ↔ d.humidity > 80) ∧
    (Alert.luminosity ∈ analyze_data d ↔ d.luminosity < 10) ∧
    (Alert.vibration ∈ analyze_data d ↔ accelSq d > 2000 ^ 2) := by
  by_cases h1 : d.temperature > 35 <;> by_cases h2 : d.humidity > 80 <;>
    by_cases h3 : d.luminosity < 10 <;> by_cases h4 : accelSq d > 2000 ^ 2 <;>
      simp [analyze_data, h1, h2, h3, h4]

theorem analyze_data_sub (d : Esp32Record) :
    ∀ a ∈ analyze_data d,
      a = Alert.temperature ∨ a = Alert.humidity ∨ a = Alert.luminosity ∨
        a = Alert.vibration := by
  intro a _
  cases a
  · exact Or.inl rfl
  · exact Or.inr (Or.inl rfl)
  · exact Or.inr (Or.inr (Or.inl rfl))
  · exact Or.inr (Or.inr (Or.inr rfl))

theorem sqrt_accelSq_gt_iff (d : Esp32Record) :
    (Real.sqrt ((d.accel_x : ℝ) ^ 2 + (d.accel_y : ℝ) ^ 2 + (d.accel_z : ℝ) ^ 2) > 2000)
      ↔ accelSq d > 2000 ^ 2 := by
  have hcast : ((accelSq d : ℤ) : ℝ)
      = (d.accel_x : ℝ) ^ 2 + (d.accel_y : ℝ) ^ 2 + (d.accel_z : ℝ) ^ 2 := by
    simp only [accelSq]
    push_cast
    ring
  rw [gt_iff_lt, Real.lt_sqrt (by norm_num), ← hcast]
  constructor
  · intro h
    exact_mod_cast h
  · intro h
    exact_mod_cast h

theorem randint_bounds (lo hi seed : ℤ) (h : lo ≤ hi) :
    lo ≤ randint lo hi seed ∧ randint lo hi seed ≤ hi := by
  unfold randint
  have hm : (0 : ℤ) < hi - lo + 1 := by omega
  have h1 : 0 ≤ (seed - lo) % (hi - lo + 1) := Int.emod_nonneg _ (by omega)
  have h2 : (seed - lo) % (hi - lo + 1) < hi - lo + 1 := Int.emod_lt_of_pos _ hm
  omega

theorem sq_le_bound {x b : ℤ} (h1 : -b ≤ x) (h2 : x ≤ b) : x ^ 2 ≤ b ^ 2 := by
  nlinarith

theorem roundHalfEven_ge_floor (q : ℚ) : ⌊q⌋ ≤ roundHalfEven q := by
  unfold roundHalfEven
  split_ifs <;> omega

theorem roundHalfEven_le_floor_add_one (q : ℚ) : roundHalfEven q ≤ ⌊q⌋ + 1 := by
  unfold roundHalfEven
  split_ifs <;> omega

theorem roundHalfEven_intCast (n : ℤ) : roundHalfEven (n : ℚ) = n := by
  unfold roundHalfEven
  rw [Int.floor_intCast, sub_self, if_pos (by norm_num)]

theorem roundHalfEven_le_of_le (q : ℚ) (n : ℤ) (h : q ≤ (n : ℚ)) :
    roundHalfEven q ≤ n := by
  have hf : ⌊q⌋ ≤ n := by
    have h2 := Int.floor_le_floor h
    rwa [Int.floor_intCast] at h2
  rcases eq_or_lt_of_le hf with heq | hlt
  · have hq : q = (n : ℚ) := by
      refine le_antisymm h ?_
      rw [← heq]
      exact Int.floor_le q
    rw [hq, roundHalfEven_intCast]
  · exact (roundHalfEven_le_floor_add_one q).trans (by omega)

theorem le_roundHalfEven_of_le (q : ℚ) (n : ℤ) (h : (n : ℚ) ≤ q) :
    n ≤ roundHalfEven q :=
  (Int.le_floor.mpr h).trans (roundHalfEven_ge_floor q)

theorem round2_le_int (q : ℚ) (n : ℤ) (h : q ≤ (n : ℚ)) : round2 q ≤ (n : ℚ) := by
  unfold round2
  have h2 : roundHalfEven (q * 100) ≤ n * 100 := by
    refine roundHalfEven_le_of_le (q * 100) (n * 100) ?_
    push_cast
    linarith
  have h3 : ((roundHalfEven (q * 100) : ℤ) : ℚ) ≤ ((n * 100 : ℤ) : ℚ) := by
    exact_mod_cast h2
  push_cast at h3
  linarith

theorem round2_ge_int (q : ℚ) (n : ℤ) (h : (n : ℚ) ≤ q) : (n : ℚ) ≤ round2 q := by
  unfold round2
  have h2 : n * 100 ≤ roundHalfEven (q * 100) := by
    refine le_roundHalfEven_of_le (q * 100) (n * 100) ?_
    push_cast
    linarith
  have h3 : ((n * 100 : ℤ) : ℚ) ≤ ((roundHalfEven (q * 100) : ℤ) : ℚ) := by
    exact_mod_cast h2
  push_cast at h3
  linarith

/-! ## Claims C3, C9, C10 -/

/-- Claim C3: for every data record, analyze_data returns the temperature
alert iff temperature > 35.0, the humidity alert iff humidity > 80.0, the
luminosity alert iff luminosity < 10.0, the vibration alert iff
sqrt(accel_x^2 + accel_y^2 + accel_z^2) > 2000, and no other alerts; the
function reads nothing but the record, so the comparisons are fixed
thresholds independent of any stored state or history. -/
theorem analyze_data_thresholds (d : Esp32Record) :
    (Alert.temperature ∈ analyze_data d ↔ d.temperature > 35) ∧
    (Alert.humidity ∈ analyze_data d ↔ d.humidity > 80) ∧
    (Alert.luminosity ∈ analyze_data d ↔ d.luminosity < 10) ∧
    (Alert.vibration ∈ analyze_data d ↔
      Real.sqrt ((d.accel_x : ℝ) ^ 2 + (d.accel_y : ℝ) ^ 2 + (d.accel_z : ℝ) ^ 2) > 2000) ∧
    (∀ a ∈ analyze_data d,
      a = Alert.temperature ∨ a = Alert.humidity ∨ a = Alert.luminosity ∨
        a = Alert.vibration) := by
  obtain ⟨h1, h2, h3, h4⟩ := analyze_data_mem d
  exact ⟨h1, h2, h3, h4.trans (sqrt_accelSq_gt_iff d).symm, analyze_data_sub d⟩

/-- Witness for C3 at a record with temperature 40: the temperature alert
is present and the characterisations apply. -/
theorem analyze_data_thresholds_witness :
    (Alert.temperature ∈ analyze_data dC3 ↔ dC3.temperature > 35) ∧
    (Alert.temperature = Alert.temperature ∨ Alert.temperature = Alert.humidity ∨
      Alert.temperature = Alert.luminosity ∨ Alert.temperature = Alert.vibration) :=
  ⟨(analyze_data_thresholds dC3).1,
   (analyze_data_thresholds dC3).2.2.2.2 Alert.temperature (by decide)⟩

/-- Claim C9: every record collect_data produces satisfies the declared
environmental bounds, whatever the random draws: temperature lies in
[-40, 80] and an out-of-range draw is replaced by 25.0; humidity lies in
[0, 100] and an out-of-range draw is replaced by 55.0; luminosity lies in
[0, 100], clamped by max(0, min(100, light)). -/
theorem collect_data_bounds (ts : Nat) (tempRaw humRaw lightRaw : ℚ)
    (excessive : Bool) (s1 s2 s3 s4 s5 s6 : ℤ) (r : Esp32Record)
    (hr : r = collect_data ts tempRaw humRaw lightRaw excessive s1 s2 s3 s4 s5 s6) :
    (-40 ≤ r.temperature ∧ r.temperature ≤ 80) ∧
    (0 ≤ r.humidity ∧ r.humidity ≤ 100) ∧
    (0 ≤ r.luminosity ∧ r.luminosity ≤ 100) ∧
    ((tempRaw < -40 ∨ tempRaw > 80) → (read_dht22 tempRaw humRaw).1 = 25) ∧
    ((humRaw < 0 ∨ humRaw > 100) → (read_dht22 tempRaw humRaw).2 = 55) ∧
    read_ldr lightRaw = max 0 (min 100 lightRaw) := by
  have hT : (-40 : ℚ) ≤ (read_dht22 tempRaw humRaw).1 ∧
      (read_dht22 tempRaw humRaw).1 ≤ 80 := by
    simp only [read_dht22]
    split_ifs with h
    · norm_num
    · push_neg at h
      exact ⟨by linarith [h.1], h.2⟩
  have hH : (0 : ℚ) ≤ (read_dht22 tempRaw humRaw).2 ∧
      (read_dht22 tempRaw humRaw).2 ≤ 100 := by
    simp only [read_dht22]
    split_ifs with h
    · norm_num
    · push_neg at h
      exact ⟨by linarith [h.1], h.2⟩
  have hL : (0 : ℚ) ≤ read_ldr lightRaw ∧ read_ldr lightRaw ≤ 100 := by
    unfold read_ldr
    exact ⟨le_max_left 0 _, max_le (by norm_num) (min_le_left _ _)⟩
  subst hr
  refine ⟨⟨?_, ?_⟩, ⟨?_, ?_⟩, ⟨?_, ?_⟩, ?_, ?_, rfl⟩
  · show (-40 : ℚ) ≤ round2 (read_dht22 tempRaw humRaw).1
    have h := round2_ge_int (read_dht22 tempRaw humRaw).1 (-40) (by exact_mod_cast hT.1)
    exact_mod_cast h
  · show round2 (read_dht22 tempRaw humRaw).1 ≤ 80
    have h := round2_le_int (read_dht22 tempRaw humRaw).1 80 (by exact_mod_cast hT.2)
    exact_mod_cast h
  · show (0 : ℚ) ≤ round2 (read_dht22 tempRaw humRaw).2
    have h := round2_ge_int (read_dht22 tempRaw humRaw).2 0 (by exact_mod_cast hH.1)
    exact_mod_cast h
  · show round2 (read_dht22 tempRaw humRaw).2 ≤ 100
    have h := round2_le_int (read_dht22 tempRaw humRaw).2 100 (by exact_mod_cast hH.2)
    exact_mod_cast h
  · show (0 : ℚ) ≤ round2 (read_ldr lightRaw)
    have h := round2_ge_int (read_ldr lightRaw) 0 (by exact_mod_cast hL.1)
    exact_mod_cast h
  · show round2 (read_ldr lightRaw) ≤ 100
    have h := round2_le_int (read_ldr lightRaw) 100 (by exact_mod_cast hL.2)
    exact_mod_cast h
  · intro h
    simp only [read_dht22]
    rw [if_pos h]
  · intro h
    simp only [read_dht22]
    rw [if_pos h]

/-- Witness for C9 at concrete draws with the temperature draw out of
range (100) and the humidity draw out of range (-5). -/
theorem collect_data_bounds_witness :
    (-40 ≤ (collect_data 0 100 (-5) 120 false 0 0 0 0 0 0).temperature ∧
      (collect_data 0 100 (-5) 120 false 0 0 0 0 0 0).temperature ≤ 80) ∧
    (read_dht22 100 (-5)).1 = 25 ∧ (read_dht22 100 (-5)).2 = 55 := by
  have h := collect_data_bounds 0 100 (-5) 120 false 0 0 0 0 0 0 _ rfl
  exact ⟨h.1, h.2.2.2.1 (by norm_num), h.2.2.2.2.1 (by norm_num)⟩

/-- Claim C10: for every draw, the squared acceleration magnitude of a
collect_data record is at most 500^2 + 500^2 + 1200^2 = 1940000 — ax and
ay lie in [-500, 500] and az in [800, 1200] even in the excessive
vibration branch — hence the magnitude sqrt is below 2000 and the
vibration branch of analyze_data is unreachable on the simulator's own
data: the simulator never emits the vibration alert. -/
theorem simulator_never_vibration_alert (ts : Nat) (tempRaw humRaw lightRaw : ℚ)
    (excessive : Bool) (s1 s2 s3 s4 s5 s6 : ℤ) (r : Esp32Record)
    (hr : r = collect_data ts tempRaw humRaw lightRaw excessive s1 s2 s3 s4 s5 s6) :
    accelSq r ≤ 500 ^ 2 + 500 ^ 2 + 1200 ^ 2 ∧
    Real.sqrt ((r.accel_x : ℝ) ^ 2 + (r.accel_y : ℝ) ^ 2 + (r.accel_z : ℝ) ^ 2) < 2000 ∧
    Alert.vibration ∉ analyze_data r := by
  have hx : r.accel_x = (read_mpu6050 excessive s1 s2 s3 s4 s5 s6).ax := by rw [hr]; rfl
  have hy : r.accel_y = (read_mpu6050 excessive s1 s2 s3 s4 s5 s6).ay := by rw [hr]; rfl
  have hz : r.accel_z = (read_mpu6050 excessive s1 s2 s3 s4 s5 s6).az := by rw [hr]; rfl
  have hax : -(500 : ℤ) ≤ r.accel_x ∧ r.accel_x ≤ 500 := by
    rw [hx]
    cases excessive
    · simp only [read_mpu6050, Bool.false_eq_true, if_false]
      have h := randint_bounds (-50) 50 s1 (by norm_num)
      exact ⟨by linarith [h.1], by linarith [h.2]⟩
    · simp only [read_mpu6050, if_true]
      exact randint_bounds (-500) 500 s1 (by norm_num)
  have hay : -(500 : ℤ) ≤ r.accel_y ∧ r.accel_y ≤ 500 := by
    rw [hy]
    cases excessive
    · simp only [read_mpu6050, Bool.false_eq_true, if_false]
      have h := randint_bounds (-50) 50 s2 (by norm_num)
      exact ⟨by linarith [h.1], by linarith [h.2]⟩
    · simp only [read_mpu6050, if_true]
      exact randint_bounds (-500) 500 s2 (by norm_num)
  have haz : (800 : ℤ) ≤ r.accel_z ∧ r.accel_z ≤ 1200 := by
    rw [hz]
    cases excessive
    · simp only [read_mpu6050, Bool.false_eq_true, if_false]
      have h := randint_bounds 950 1050 s3 (by norm_num)
      exact ⟨by linarith [h.1], by linarith [h.2]⟩
    · simp only [read_mpu6050, if_true]
      exact randint_bounds 800 1200 s3 (by norm_num)
  have hsq : accelSq r ≤ 500 ^ 2 + 500 ^ 2 + 1200 ^ 2 := by
    have b1 : r.accel_x ^ 2 ≤ 500 ^ 2 := sq_le_bound hax.1 hax.2
    have b2 : r.accel_y ^ 2 ≤ 500 ^ 2 := sq_le_bound hay.1 hay.2
    have b3 : r.accel_z ^ 2 ≤ 1200 ^ 2 := sq_le_bound (by linarith [haz.1]) haz.2
    simp only [accelSq]
    linarith
  have hlt : accelSq r < 2000 ^ 2 := by
    have hn : (500 : ℤ) ^ 2 + 500 ^ 2 + 1200 ^ 2 < 2000 ^ 2 := by norm_num
    linarith
  refine ⟨hsq, ?_, ?_⟩
  · rw [Real.sqrt_lt' (by norm_num)]
    have hcast : (r.accel_x : ℝ) ^ 2 + (r.accel_y : ℝ) ^ 2 + (r.accel_z : ℝ) ^ 2
        = ((accelSq r : ℤ) : ℝ) := by
      simp only [accelSq]
      push_cast
      ring
    rw [hcast]
    exact_mod_cast hlt
  · intro hmem
    have h4 := ((analyze_data_mem r).2.2.2).mp hmem
    exact absurd h4 (by linarith)

/-- Witness for C10 at concrete draws taking the excessive-vibration
branch. -/
theorem simulator_never_vibration_alert_witness :
    accelSq (collect_data 0 25 50 60 true 0 0 0 0 0 0) ≤ 500 ^ 2 + 500 ^ 2 + 1200 ^ 2 ∧
    Real.sqrt (((collect_data 0 25 50 60 true 0 0 0 0 0 0).accel_x : ℝ) ^ 2 +
      ((collect_data 0 25 50 60 true 0 0 0 0 0 0).accel_y : ℝ) ^ 2 +
      ((collect_data 0 25 50 60 true 0 0 0 0 0 0).accel_z : ℝ) ^ 2) < 2000 ∧
    Alert.vibration ∉ analyze_data (collect_data 0 25 50 60 true 0 0 0 0 0 0) :=
  simulator_never_vibration_alert 0 25 50 60 true 0 0 0 0 0 0 _ rfl

/-! ## Claims C4 and C5 -/

/-- Claim C4: in both execute_query implementations, whenever the
underlying SQL execution raises, the method prints the exception message,
rolls the transaction back — the committed database state is unchanged by
the failed call and the pending view is reset to it — and re-raises the
same exception; and the outcome depends only on the first (and only)
execution attempt, so there is no retry or fallback. -/
theorem execute_query_error_handling {ρ : Type}
    (engine other : Nat → DBState → Except String (List ρ × DBState))
    (hasResultSet : Bool) (query : String) (c : Conn) (e : String)
    (hf : engine 0 c.pending = .error e)
    (hagree : other 0 c.pending = engine 0 c.pending) :
    executeQueryPg engine hasResultSet c
      = (.error e, { committed := c.committed, pending := c.committed }, [errMsg e]) ∧
    executeQuerySqlite engine query c
      = (.error e, { committed := c.committed, pending := c.committed }, [errMsg e]) ∧
    executeQueryPg other hasResultSet c = executeQueryPg engine hasResultSet c ∧
    executeQuerySqlite other query c = executeQuerySqlite engine query c := by
  refine ⟨?_, ?_, ?_, ?_⟩
  · simp only [executeQueryPg, hf]
  · simp only [executeQuerySqlite, hf]
  · simp only [executeQueryPg, hagree]
  · simp only [executeQuerySqlite, hagree]

/-- Witness for C4: a failing engine on a fresh connection over the empty
database. -/
theorem execute_query_error_handling_witness :
    executeQueryPg failingEngine true conn0
      = (.error "falha de conexao",
         { committed := conn0.committed, pending := conn0.committed },
         [errMsg "falha de conexao"]) ∧
    executeQuerySqlite failingEngine "SELECT 1" conn0
      = (.error "falha de conexao",
         { committed := conn0.committed, pending := conn0.committed },
         [errMsg "falha de conexao"]) ∧
    executeQueryPg failingEngine true conn0 = executeQueryPg failingEngine true conn0 ∧
    executeQuerySqlite failingEngine "SELECT 1" conn0
      = executeQuerySqlite failingEngine "SELECT 1" conn0 :=
  execute_query_error_handling failingEngine failingEngine true "SELECT 1" conn0
    "falha de conexao" rfl rfl

/-- Claim C5: create_reading — in the PostgreSQL and the SQLite class
alike — performs exactly one unguarded INSERT: every call appends exactly
one reading row regardless of the existing state (no duplicate check, no
batching), and two successive calls with identical sensor_id, timestamp
and value produce two distinct rows with distinct ids. -/
theorem create_reading_unguarded_insert (st : DBState) (sid ts : Nat) (v : ℚ) :
    (createReadingPg st sid ts v).2.readings
      = st.readings ++ [{ id := st.nextId, sensor_id := sid, ts := ts, value := v }] ∧
    (createReadingSqlite st sid ts v).2.readings
      = st.readings ++ [{ id := st.nextId, sensor_id := sid, ts := ts, value := v }] ∧
    (createReadingPg st sid ts v).2.readings.length = st.readings.length + 1 ∧
    (createReadingPg (createReadingPg st sid ts v).2 sid ts v).2.readings
      = st.readings ++
        [{ id := st.nextId, sensor_id := sid, ts := ts, value := v },
         { id := st.nextId + 1, sensor_id := sid, ts := ts, value := v }] ∧
    (createReadingSqlite (createReadingSqlite st sid ts v).2 sid ts v).2.readings
      = st.readings ++
        [{ id := st.nextId, sensor_id := sid, ts := ts, value := v },
         { id := st.nextId + 1, sensor_id := sid, ts := ts, value := v }] ∧
    (createReadingPg st sid ts v).1
      ≠ (createReadingPg (createReadingPg st sid ts v).2 sid ts v).1 ∧
    ({ id := st.nextId, sensor_id := sid, ts := ts, value := v } : ReadingRow)
      ≠ { id := st.nextId + 1, sensor_id := sid, ts := ts, value := v } := by
  refine ⟨rfl, rfl, by simp [createReadingPg], by simp [createReadingPg], by
    simp [createReadingSqlite], by simp [createReadingPg], ?_⟩
  intro h
  have := congrArg ReadingRow.id h
  simp at this

/-! ## Claim C6 -/

/-- Claim C6 counterexample: on a state with one sensor and one reading
the two classes are observably inequivalent — the PostgreSQL
get_latest_readings returns the reading row, while the SQLite version
returns nothing, because its execute_query only fetches rows for query
texts starting with SELECT and the latest-readings query starts with WITH;
moreover the get_database_stats dicts do not even have the same keys. -/
theorem pg_sqlite_divergence_counterexample :
    getLatestReadingsPg dbC6
      = [{ ts := 3600, value := 25, sensor_name := "S_TEMP",
           stype := "temperature", unit := "C" }] ∧
    getLatestReadingsSqlite dbC6 = [] ∧
    getLatestReadingsPg dbC6 ≠ getLatestReadingsSqlite dbC6 ∧
    (getDatabaseStatsPg dbC6).map Prod.fst
      ≠ (getDatabaseStatsSqlite dbC6).map Prod.fst := by
  refine ⟨?_, ?_, ?_, ?_⟩ <;> decide

/-- Claim C6 (amended): the duplication is only partially behaviour
preserving.  The creation operations and get_sensor_readings agree between
the two classes on every state and argument; but the SQLite
get_latest_readings always returns the empty result (its execute_query
treats the WITH query as a non-SELECT statement and fetches nothing) while
the PostgreSQL one computes the latest reading per sensor, and the
get_database_stats dicts have different key sets (the PostgreSQL class
reports first_reading and omits the alert and prediction counts).  The
operations get_sensor_readings_by_name, get_sensor_id_by_name and
create_prediction exist only in the SQLite class, so no equivalence can be
stated for them. -/
theorem pg_sqlite_equivalence_amended :
    (∀ st name location, createAssetPg st name location = createAssetSqlite st name location) ∧
    (∀ st assetId sd, createSensorPg st assetId sd = createSensorSqlite st assetId sd) ∧
    (∀ st sid ts v, createReadingPg st sid ts v = createReadingSqlite st sid ts v) ∧
    (∀ st sid limit, getSensorReadingsPg st sid limit = getSensorReadingsSqlite st sid limit) ∧
    (∀ st, getLatestReadingsSqlite st = []) ∧
    (∀ st, getLatestReadingsPg st = latestReadingsRows st) ∧
    (∀ st, (getDatabaseStatsPg st).map Prod.fst
      = ["asset_count", "sensor_count", "reading_count", "last_reading", "first_reading"]) ∧
    (∀ st, (getDatabaseStatsSqlite st).map Prod.fst
      = ["asset_count", "sensor_count", "reading_count", "alert_count",
         "prediction_count", "last_reading"]) := by
  have hsel : startsWithSelect sensorReadingsQuery = true := by decide
  have hwith : startsWithSelect latestReadingsQuery = false := by decide
  refine ⟨fun _ _ _ => rfl, fun _ _ _ => rfl, fun _ _ _ _ => rfl, ?_, ?_,
    fun _ => rfl, fun _ => rfl, fun _ => rfl⟩
  · intro st sid limit
    simp only [getSensorReadingsPg, getSensorReadingsSqlite, hsel, if_true]
  · intro st
    simp only [getLatestReadingsSqlite, hwith, Bool.false_eq_true, if_false]

/-! ## Claim C7 -/

/-- Claim C7: for every input list of n ESP32 records, process_esp32_data
returns exactly 4n reading dicts — for each input record, in order, one
temperature, one humidity, one luminosity and one vibration reading, all
four carrying that record's timestamp, with the vibration value equal to
sqrt(accel_x^2 + accel_y^2 + accel_z^2) of the record. -/
theorem process_esp32_data_shape (ids : SensorIds) (records : List Esp32Record) :
    (process_esp32_data ids records).length = 4 * records.length ∧
    process_esp32_data ids records
      = records.flatMap (fun r =>
          [{ sensor_id := ids.temp, ts := r.timestamp, value := (r.temperature : ℝ) },
           { sensor_id := ids.humidity, ts := r.timestamp, value := (r.humidity : ℝ) },
           { sensor_id := ids.light, ts := r.timestamp, value := (r.luminosity : ℝ) },
           { sensor_id := ids.vibration, ts := r.timestamp,
             value := Real.sqrt ((r.accel_x : ℝ) ^ 2 + (r.accel_y : ℝ) ^ 2 +
               (r.accel_z : ℝ) ^ 2) }]) := by
  induction records with
  | nil => exact ⟨rfl, rfl⟩
  | cons r rest ih =>
    obtain ⟨ihlen, iheq⟩ := ih
    constructor
    · simp only [process_esp32_data, List.length_cons, ihlen]
      ring
    · simp only [process_esp32_data, List.flatMap_cons, List.cons_append, List.nil_append,
        iheq]

/-! ## Claim C8 -/

/-- Claim C8: every prediction persisted by MLPredictor.predict_single_value
and every prediction persisted by MLModelTrainer.predict_next_value —
each method taken on its own, on any state where it returns at all — is
stored as a prediction row tied to the id resolved from the sensor name,
carrying exactly the model's predicted value, a confidence (the computed
one, respectively the constant 0.8) and the model version string "v1.0";
the returned dict reports the same predicted value for the same sensor
name. -/
theorem predictions_persisted_v1 (sqrtFn : ℚ → ℚ) (model : Feat → ℚ) (nowHour : Nat)
    (st : DBState) (name : String) :
    (∀ out st2, predict_single_value sqrtFn model st name = some (out, st2) →
      ∃ sid, getSensorIdByNameSqlite st name = some sid ∧
        st2.predictions = st.predictions ++
          [{ id := st.nextId, sensor_id := sid, predicted_value := out.predicted_value,
             confidence := out.confidence, model_version := "v1.0" }] ∧
        out.sensor_name = name) ∧
    (∀ out2 st3, predict_next_value model nowHour st name = some (out2, st3) →
      ∃ sid, getSensorIdByNameSqlite st name = some sid ∧
        st3.predictions = st.predictions ++
          [{ id := st.nextId, sensor_id := sid, predicted_value := out2.2,
             confidence := 8 / 10, model_version := "v1.0" }] ∧
        out2.1 = name) := by
  constructor
  · intro out st2 h
    cases hlast : (prepare_features st name 5).getLast? with
    | none =>
      simp only [predict_single_value, hlast] at h
      exact Option.noConfusion h
    | some lastFeat =>
      cases hsid : getSensorIdByNameSqlite st name with
      | none =>
        simp only [predict_single_value, hlast, hsid] at h
        exact Option.noConfusion h
      | some sid =>
        simp only [predict_single_value, hlast, hsid] at h
        have hp := Option.some.inj h
        rw [Prod.mk.injEq] at hp
        obtain ⟨hout, hst2⟩ := hp
        subst hout
        subst hst2
        exact ⟨sid, rfl, rfl, rfl⟩
  · intro out2 st3 h2
    by_cases hemp : (getSensorReadingsByNameSqlite st name 10).isEmpty = true
    · simp [predict_next_value, hemp] at h2
    · cases hsid : getSensorIdByNameSqlite st name with
      | none =>
        simp only [predict_next_value, hsid] at h2
        rw [if_neg hemp] at h2
        exact Option.noConfusion h2
      | some sid =>
        simp only [predict_next_value, hsid] at h2
        rw [if_neg hemp] at h2
        have hp2 := Option.some.inj h2
        rw [Prod.mk.injEq] at hp2
        obtain ⟨hout2, hst3⟩ := hp2
        subst hout2
        subst hst3
        exact ⟨sid, rfl, rfl, rfl⟩

/-- Witness for C8: the predictor path on a five-reading state and the
trainer path on a two-reading state, the latter exercising the
short-series iloc fallback of predict_next_value. -/
theorem predictions_persisted_v1_witness :
    (∃ sid, getSensorIdByNameSqlite c8St "S_TEMP" = some sid ∧
      c8Single.2.predictions = c8St.predictions ++
        [{ id := c8St.nextId, sensor_id := sid,
           predicted_value := c8Single.1.predicted_value,
           confidence := c8Single.1.confidence, model_version := "v1.0" }] ∧
      c8Single.1.sensor_name = "S_TEMP") ∧
    (∃ sid, getSensorIdByNameSqlite c8StShort "S_TEMP" = some sid ∧
      c8NextShort.2.predictions = c8StShort.predictions ++
        [{ id := c8StShort.nextId, sensor_id := sid, predicted_value := c8NextShort.1.2,
           confidence := 8 / 10, model_version := "v1.0" }] ∧
      c8NextShort.1.1 = "S_TEMP") :=
  ⟨(predictions_persisted_v1 (fun _ => 0) c8Model 11 c8St "S_TEMP").1
      c8Single.1 c8Single.2 rfl,
   (predictions_persisted_v1 (fun _ => 0) c8Model 11 c8StShort "S_TEMP").2
      c8NextShort.1 c8NextShort.2 rfl⟩
